import Mathlib

/-!
# Verification of the Slack streaming-relay bot (`src/app.js`)

Shallow embedding of the relay core of `app.js`:

* the inbound WebSocket message handler (`establishConnection`'s `'message'`
  callback): JSON decoding, connection-marker filtering, and the branches for
  `error`, `stream_complete`, `stream_chunk` and `chat_response`/`stream`
  frames, acting on the global turn state
  (`currentMessage`, `messageContent`, `lastUpdateTime`, `isStreaming`);
* `updateSlackMessage` (the rate-limited flush to the target message,
  including its retry-on-`rate_limited` behaviour);
* `handleChatResponse` (trim, 3000-character line-based chunk splitting,
  first-chunk update plus threaded posts);
* the `'close'`/`'open'` reconnect bookkeeping (`reconnectAttempts`,
  `MAX_RECONNECT_ATTEMPTS`, `RECONNECT_DELAY`).

Platform (Slack Web API) calls are modelled as an effect list; the
always-succeeding platform is the default model, and a variant threaded
through an explicit list of per-call platform results models rate-limit
behaviour.  Timestamps are naturals (JS `Date.now()` milliseconds); JS
number subtraction `now - lastUpdateTime` compared against the 500ms
threshold agrees with truncated `Nat` subtraction, because a negative JS
difference and a truncated-to-zero `Nat` difference both fail the `≥ 500`
test.
-/

namespace SlackRelay

/-- A decoded inbound JSON message, as the handler reads it: the three
fields the code inspects (`type`, `content`, `error`), each possibly
absent (JS `undefined`). -/
structure JsonMsg where
  type : Option String
  content : Option String
  error : Option String
deriving DecidableEq, Repr

/-- The global turn state of `app.js` (lines 23–26): whether a target
message reference exists (`currentMessage`), the accumulated buffer
(`messageContent`), the last flush timestamp (`lastUpdateTime`) and the
streaming flag (`isStreaming`). -/
structure TurnState where
  currentMessage : Bool
  messageContent : String
  lastUpdateTime : Nat
  isStreaming : Bool
deriving DecidableEq, Repr

/-- Platform calls issued by the relay: `update` is `chat.update` on the
target message, `post` is a threaded `chat.postMessage`, `wait` is the
`setTimeout` sleep (in seconds) of the rate-limit retry path. -/
inductive Eff where
  | update (text : String)
  | post (text : String)
  | wait (secs : Nat)
deriving DecidableEq, Repr

/-- Result of one platform call, as seen by the `catch` blocks:
success, a `rate_limited` error carrying an optional parsed
`retryAfter` (in seconds; `none` models `parseInt` returning `NaN`),
or any other error. -/
inductive PResult where
  | ok
  | rateLimited (retryAfter : Option Nat)
  | otherError
deriving DecidableEq, Repr

/-- The connection-confirmation marker substring checked at line 59. -/
def connectionMarker : String := "Connected to ANA Multi-Agent"

/-- `pat` occurs as a contiguous sublist of `l`. -/
def listIncludes (pat : List Char) : List Char → Bool
  | [] => pat.isEmpty
  | c :: rest => pat.isPrefixOf (c :: rest) || listIncludes pat rest

/-- JS `c.includes(connectionMarker)`: substring containment. -/
def containsMarker (c : String) : Bool :=
  listIncludes connectionMarker.data c.data

/-- `jsonMessage.content?.includes('Connected to ANA Multi-Agent')`
(line 59): `false` when `content` is absent. -/
def hasMarker (j : JsonMsg) : Bool :=
  match j.content with
  | some c => containsMarker c
  | none => false

/-- Drop leading whitespace characters from a character list (a single
step of JS `String.prototype.trim`). -/
def dropWs : List Char → List Char
  | [] => []
  | c :: rest => if c.isWhitespace then dropWs rest else c :: rest

/-- JS `content.trim()` (line 345): strip whitespace from both ends.
Structurally recursive so that it evaluates in the kernel (core
`String.trim` is defined by well-founded recursion on byte
positions). -/
def jsTrim (s : String) : String :=
  String.mk ((dropWs (dropWs s.data).reverse).reverse)

/-- Helper for `splitNl`: `cur` holds the characters of the current
line in reverse. -/
def splitNlAux : List Char → List Char → List String
  | cur, [] => [String.mk cur.reverse]
  | cur, c :: rest =>
    if c = '\n' then String.mk cur.reverse :: splitNlAux [] rest
    else splitNlAux (c :: cur) rest

/-- JS `content.split('\n')` (line 356): split on every newline,
keeping empty pieces (`"".split('\n')` is `[""]`). -/
def splitNl (s : String) : List String := splitNlAux [] s.data

/-- The inbound protocol frames, as the handler's branch structure
distinguishes them.  `ignored` collects every message no branch fires
on (unknown type, falsy content where content is required, …). -/
inductive Frame where
  | connectionAck
  | errorFrame (e : Option String)
  | streamComplete
  | streamChunk (c : String)
  | chatResponse (c : String)
  | ignored
deriving DecidableEq, Repr

/-- The branch structure of the `'message'` handler (lines 58–100),
separated out as a decoding step.  The conditions appear in source
order: connection marker first, then `type === 'error'`,
`type === 'stream_complete'`, `type === 'stream_chunk' && content`,
and `(type === 'chat_response' || type === 'stream') && content`.
JS truthiness of `content` (defined and non-empty) is
`j.content.getD "" ≠ ""`.  The `!isStreaming` condition of the last
branch is state-dependent and is checked in `handleFrame`. -/
def decodeFrame (j : JsonMsg) : Frame :=
  if hasMarker j then Frame.connectionAck
  else if j.type = some "error" then Frame.errorFrame j.error
  else if j.type = some "stream_complete" then Frame.streamComplete
  else if j.type = some "stream_chunk" ∧ j.content.getD "" ≠ "" then
    Frame.streamChunk (j.content.getD "")
  else if (j.type = some "chat_response" ∨ j.type = some "stream")
      ∧ j.content.getD "" ≠ "" then
    Frame.chatResponse (j.content.getD "")
  else Frame.ignored

/-- `handleErrorMessage` (lines 292–311) with an always-succeeding
platform: one `chat.update` with `❌ Error: ${jsonMessage.error}` when a
target message exists; when `currentMessage` is `null` the property
access throws and the function's own `catch` swallows it, so no call is
made.  A JS `undefined` error field renders as the string
`"undefined"`. -/
def handleErrorMessage (cur : Bool) (e : Option String) : List Eff :=
  if cur then [Eff.update ("❌ Error: " ++ e.getD "undefined")] else []

/-- `updateSlackMessage` (lines 314–341) with an always-succeeding
platform: returns early when there is no target message or the content
is empty (`if (!currentMessage || !content) return`), otherwise one
`chat.update` with the content. -/
def updateSlackMessage (cur : Bool) (content : String) : List Eff :=
  if cur = false ∨ content = "" then [] else [Eff.update content]

/-- The chunk-splitting loop of `handleChatResponse` (lines 354–368),
operating on the already-split line list.  Faithful to the source: the
current chunk is pushed (even when empty) whenever
`currentChunk.length + line.length + 1 > maxLen`; otherwise the line is
appended with a `'\n'` separator unless the current chunk is empty
(JS truthiness ternary); a final non-empty current chunk is pushed. -/
def splitChunksAux (maxLen : Nat) : List String → String → List String → List String
  | [], cur, chunks => if cur = "" then chunks else chunks ++ [cur]
  | line :: rest, cur, chunks =>
    if cur.length + line.length + 1 > maxLen then
      splitChunksAux maxLen rest line (chunks ++ [cur])
    else
      splitChunksAux maxLen rest
        (if cur = "" then line else cur ++ "\n" ++ line) chunks

/-- `handleChatResponse`'s splitting step: start with an empty current
chunk and no accumulated chunks. -/
def splitChunks (maxLen : Nat) (lines : List String) : List String :=
  splitChunksAux maxLen lines "" []

/-- Joining a list of strings with a single `'\n'` between consecutive
elements — the inverse of `content.split('\n')`, used to express the
reconstruction property of the splitter. -/
def nlJoin : List String → String
  | [] => ""
  | [x] => x
  | x :: y :: rest => x ++ "\n" ++ nlJoin (y :: rest)

/-- Plain concatenation of a list of strings, `c1 ‖ c2 ‖ … ‖ cn`. -/
def concatAll : List String → String
  | [] => ""
  | c :: cs => c ++ concatAll cs

/-- `handleChatResponse` (lines 343–431) with an always-succeeding
platform: trim, return on empty, split into ≤3000-character line chunks
when over 3000 characters (first chunk updates the target message,
remaining chunks are threaded posts), otherwise a single update.  When
`currentMessage` is `null` the first property access throws and the
outer `catch` logs, so no call is made. -/
def handleChatResponse (cur : Bool) (c : String) : List Eff :=
  if cur = false then []
  else
    let t := jsTrim c
    if t = "" then []
    else if t.length > 3000 then
      let chunks := splitChunks 3000 (splitNl t)
      Eff.update (chunks.headD "") :: (chunks.drop 1).map Eff.post
    else [Eff.update t]

/-- One decoded frame applied to the turn state (the body of the
`'message'` handler after decoding), with an always-succeeding
platform.  Returns the new state and the platform calls issued. -/
def handleFrame (now : Nat) (f : Frame) (s : TurnState) : TurnState × List Eff :=
  match f with
  | Frame.connectionAck => (s, [])
  | Frame.ignored => (s, [])
  | Frame.errorFrame e => (s, handleErrorMessage s.currentMessage e)
  | Frame.streamComplete =>
    if s.messageContent = "" then
      ({ s with isStreaming := false }, [])
    else
      ({ s with isStreaming := false, messageContent := "", lastUpdateTime := 0 },
        updateSlackMessage s.currentMessage s.messageContent)
  | Frame.streamChunk c =>
    let newContent := s.messageContent ++ c
    if now - s.lastUpdateTime ≥ 500 then
      ({ s with isStreaming := true, messageContent := newContent, lastUpdateTime := now },
        updateSlackMessage s.currentMessage newContent)
    else
      ({ s with isStreaming := true, messageContent := newContent }, [])
  | Frame.chatResponse c =>
    if s.isStreaming then (s, [])
    else (s, handleChatResponse s.currentMessage c)

/-- The full `'message'` handler for one raw inbound text: `none`
models text that failed `JSON.parse` (line 52), which only logs and
returns — no state change, no platform call, no exception escapes. -/
def handleMessage (now : Nat) (raw : Option JsonMsg) (s : TurnState) :
    TurnState × List Eff :=
  match raw with
  | none => (s, [])
  | some j => handleFrame now (decodeFrame j) s

/-- Run a trace of timestamped raw inbound messages through the
handler, collecting the platform calls tagged with the time of the
message that caused them. -/
def runTrace : TurnState → List (Nat × Option JsonMsg) → TurnState × List (Nat × Eff)
  | s, [] => (s, [])
  | s, (t, m) :: rest =>
    let st := handleMessage t m s
    let rec' := runTrace st.1 rest
    (rec'.1, st.2.map (fun e => (t, e)) ++ rec'.2)

/-- Platform-side view of the target message: an `update` overwrites
its text, a threaded `post` and a `wait` leave it unchanged. -/
def applyEff (r : String) : Eff → String
  | Eff.update t => t
  | Eff.post _ => r
  | Eff.wait _ => r

/-- The text the target message shows after a list of platform calls,
starting from `r` (initially the placeholder). -/
def renderedText (r : String) (effs : List Eff) : String :=
  effs.foldl applyEff r

/-- The placeholder posted by `sendWebSocketMessage` (line 160). -/
def thinkingText : String := "🤔 Thinking..."

/-- The turn state right after `sendWebSocketMessage` stores the
placeholder (lines 172–176): target set, empty buffer,
`lastUpdateTime = 0`, not streaming. -/
def freshTurn : TurnState :=
  { currentMessage := true, messageContent := "", lastUpdateTime := 0,
    isStreaming := false }

/-- A `stream_chunk` frame carrying `c`. -/
def chunkMsg (c : String) : JsonMsg :=
  { type := some "stream_chunk", content := some c, error := none }

/-- A `stream_complete` frame (no payload). -/
def completeMsg : JsonMsg :=
  { type := some "stream_complete", content := none, error := none }

/-- An `error` frame carrying the description `e`
(`{"type":"error","error": e}`, §6 of the protocol). -/
def errorMsg (e : String) : JsonMsg :=
  { type := some "error", content := none, error := some e }

/-! ## Rate-limit retry models (platform results threaded explicitly) -/

/-- `parseInt(error.retryAfter) || 1` (line 334): `NaN` (here `none`)
and `0` both fall back to 1 second. -/
def retryDelaySecs : Option Nat → Nat
  | some n => if n = 0 then 1 else n
  | none => 1

/-- `updateSlackMessage` with the platform's per-call results supplied
as a list, consumed one per attempted call.  On `rate_limited` the code
sleeps `retryAfter` seconds (default 1) and recursively retries the
same content; on success or any other error it stops.  An exhausted
result list models a final call answered with success. -/
def updateSlackMessageR (cur : Bool) (content : String) :
    List PResult → List Eff
  | [] => if cur = false ∨ content = "" then [] else [Eff.update content]
  | r :: rs =>
    if cur = false ∨ content = "" then []
    else
      Eff.update content ::
        match r with
        | PResult.rateLimited ra =>
          Eff.wait (retryDelaySecs ra) :: updateSlackMessageR cur content rs
        | _ => []

/-- The threaded-post loop of `handleChatResponse` (lines 390–406) with
explicit platform results: each post consumes one result; a failed post
throws into the outer `catch`, aborting the remaining posts.  An
exhausted result list models success. -/
def postChunksR : List String → List PResult → List Eff
  | [], _ => []
  | c :: _, [] => [Eff.post c]
  | c :: cs, r :: rs =>
    Eff.post c :: (if r = PResult.ok then postChunksR cs rs else [])

/-- `handleChatResponse` with explicit platform results.  Note there is
no rate-limit handling anywhere in this function: any error from
`chat.update`/`chat.postMessage` lands in the `catch` at line 428,
which only logs. -/
def handleChatResponseR (cur : Bool) (c : String) (rs : List PResult) : List Eff :=
  if cur = false then []
  else
    let t := jsTrim c
    if t = "" then []
    else if t.length > 3000 then
      let chunks := splitChunks 3000 (splitNl t)
      match rs with
      | [] => [Eff.update (chunks.headD "")]
      | r :: rs' =>
        Eff.update (chunks.headD "") ::
          (if r = PResult.ok then postChunksR (chunks.drop 1) rs' else [])
    else [Eff.update t]

/-! ## Connection lifecycle model -/

/-- Events relevant to the reconnect counter: a successful `'open'`,
a `'close'`, and any inbound frame (which never touches the counter). -/
inductive ConnEvent where
  | opened
  | closed
  | frameArrived
deriving DecidableEq, Repr

/-- Effect of one connection event on `reconnectAttempts` (lines 39–43
and 131–143), returning the new counter and the delay (ms) of the
reconnect scheduled by the `'close'` handler, if any.  The delay is
`RECONNECT_DELAY * reconnectAttempts` computed with the counter's value
*before* the increment that runs inside the timer callback. -/
def connStep (attempts : Nat) : ConnEvent → Nat × Option Nat
  | ConnEvent.opened => (0, none)
  | ConnEvent.closed =>
    if attempts < 5 then (attempts + 1, some (1000 * attempts))
    else (attempts, none)
  | ConnEvent.frameArrived => (attempts, none)

/-- The scheduled delays of `k` consecutive `'close'` events (each
scheduled reconnect's timer firing, and failing again, before the
next close). -/
def closeSeq : Nat → Nat → List (Option Nat)
  | _, 0 => []
  | attempts, Nat.succ k =>
    (connStep attempts ConnEvent.closed).2 ::
      closeSeq (connStep attempts ConnEvent.closed).1 k

/-- A `chat_response` frame carrying `c`. -/
def chatMsg (c : String) : JsonMsg :=
  { type := some "chat_response", content := some c, error := none }

/-- The trace of raw `stream_chunk` messages for a list of
(timestamp, content) pairs. -/
def chunkEvents (cs : List (Nat × String)) : List (Nat × Option JsonMsg) :=
  cs.map (fun p => (p.1, some (chunkMsg p.2)))

/-- The turn state after a non-empty `stream_chunk` with content `c` at
time `t`: streaming set, content appended, and the flush timestamp
advanced exactly when the 500ms test fired. -/
def chunkStep (t : Nat) (c : String) (s : TurnState) : TurnState :=
  { s with isStreaming := true, messageContent := s.messageContent ++ c, lastUpdateTime := if 500 ≤ t - s.lastUpdateTime then t else s.lastUpdateTime }

/-- A turn state in the middle of streaming (used to instantiate
theorems about frames arriving while `isStreaming` is set). -/
def streamingTurn : TurnState :=
  { currentMessage := true, messageContent := "abc", lastUpdateTime := 0,
    isStreaming := true }

/-- A 3000-character line (each line of the splitter input may be up to
3000 characters under the claim's hypothesis). -/
def big3000 : String := String.mk (List.replicate 3000 'a')

/-- A 1501-character line (two of them joined exceed the 3000-character
threshold while each stays under it). -/
def a1501 : String := String.mk (List.replicate 1501 'a')

/-! ## Helper lemmas -/

lemma big3000_length : big3000.length = 3000 := by
  show (List.replicate 3000 'a').length = 3000
  exact List.length_replicate 3000 'a'

lemma a1501_length : a1501.length = 1501 := by
  show (List.replicate 1501 'a').length = 1501
  exact List.length_replicate 1501 'a'

lemma ne_empty_of_length_ne_zero (s : String) (h : s.length ≠ 0) : s ≠ "" :=
  fun he => h (by rw [he]; rfl)

lemma decodeFrame_chunkMsg (c : String) (h : containsMarker c = false) :
    decodeFrame (chunkMsg c) = if c = "" then Frame.ignored else Frame.streamChunk c := by
  by_cases hc : c = ""
  · subst hc; simp only [if_pos rfl]; decide
  · rw [if_neg hc]
    simp [decodeFrame, chunkMsg, hasMarker, h, hc]

lemma handleMessage_chunk (t : Nat) (c : String) (s : TurnState)
    (h : containsMarker c = false) (hc : c ≠ "") :
    ∃ effs, handleMessage t (some (chunkMsg c)) s = (chunkStep t c s, effs) := by
  have hdec := decodeFrame_chunkMsg c h
  rw [if_neg hc] at hdec
  simp only [handleMessage, hdec]
  simp only [handleFrame]
  unfold chunkStep
  by_cases hf : 500 ≤ t - s.lastUpdateTime
  · exact ⟨_, by rw [if_pos hf, if_pos hf]⟩
  · exact ⟨_, by rw [if_neg hf, if_neg hf]⟩

lemma runTrace_append (s : TurnState) (l1 l2 : List (Nat × Option JsonMsg)) :
    runTrace s (l1 ++ l2) =
      ((runTrace (runTrace s l1).1 l2).1,
       (runTrace s l1).2 ++ (runTrace (runTrace s l1).1 l2).2) := by
  induction l1 generalizing s with
  | nil => simp [runTrace]
  | cons p rest ih =>
    obtain ⟨t, m⟩ := p
    simp [runTrace, ih]

lemma runTrace_chunks (cs : List (Nat × String)) (s : TurnState)
    (hm : ∀ p ∈ cs, containsMarker p.2 = false) :
    ((runTrace s (chunkEvents cs)).1.currentMessage = s.currentMessage) ∧
    ((runTrace s (chunkEvents cs)).1.messageContent
       = s.messageContent ++ concatAll (cs.map Prod.snd)) := by
  induction cs generalizing s with
  | nil => simp [chunkEvents, runTrace, concatAll, String.append_empty]
  | cons p rest ih =>
    obtain ⟨t, c⟩ := p
    have hc : containsMarker c = false := hm _ (List.mem_cons_self _ _)
    have hrest : ∀ q ∈ rest, containsMarker q.2 = false :=
      fun q hq => hm q (List.mem_cons_of_mem _ hq)
    by_cases hce : c = ""
    · subst hce
      have hdec : decodeFrame (chunkMsg "") = Frame.ignored := by decide
      have h2 := ih s hrest
      simp only [chunkEvents, List.map_cons, runTrace, handleMessage, hdec, handleFrame] at h2 ⊢
      simpa [concatAll, String.empty_append] using h2
    · obtain ⟨effs, heq⟩ := handleMessage_chunk t c s hc hce
      have h2 := ih (chunkStep t c s) hrest
      simp only [chunkEvents, List.map_cons, runTrace, heq] at h2 ⊢
      refine ⟨by rw [h2.1]; rfl, ?_⟩
      rw [h2.2]
      simp only [chunkStep, concatAll]
      rw [String.append_assoc]

lemma runTrace_complete (t : Nat) (s : TurnState) (h1 : s.currentMessage = true)
    (h2 : s.messageContent ≠ "") :
    (runTrace s [(t, some completeMsg)]).2 = [(t, Eff.update s.messageContent)] := by
  have hd : decodeFrame completeMsg = Frame.streamComplete := by decide
  simp [runTrace, handleMessage, hd, handleFrame, h2, updateSlackMessage, h1]

lemma nlJoin_cons (x : String) (l : List String) (h : l ≠ []) :
    nlJoin (x :: l) = x ++ "\n" ++ nlJoin l := by
  cases l with
  | nil => exact absurd rfl h
  | cons y ys => rfl

lemma nlJoin_glue (x y : String) (l : List String) :
    nlJoin ((x ++ "\n" ++ y) :: l) = nlJoin (x :: y :: l) := by
  cases l with
  | nil => rfl
  | cons z zs =>
    show x ++ "\n" ++ y ++ "\n" ++ nlJoin (z :: zs)
      = x ++ "\n" ++ nlJoin (y :: z :: zs)
    rw [nlJoin_cons y (z :: zs) (by simp)]
    simp [String.append_assoc]

lemma splitChunksAux_spec (lines : List String) :
    ∀ (cur : String) (chunks : List String),
    (∀ l ∈ lines, l ≠ "" ∧ l.length + 1 ≤ 3000) → cur ≠ "" → cur.length ≤ 3000 →
    ∃ rest, splitChunksAux 3000 lines cur chunks = chunks ++ rest ∧ rest ≠ [] ∧
      nlJoin rest = nlJoin (cur :: lines) ∧ (∀ c ∈ rest, c.length ≤ 3000) := by
  induction lines with
  | nil =>
    intro cur chunks _ hcur hlen
    refine ⟨[cur], ?_, by simp, rfl, by simpa using hlen⟩
    simp [splitChunksAux, hcur]
  | cons line rest' ih =>
    intro cur chunks hl hcur hlen
    have hline := hl line (List.mem_cons_self _ _)
    have hrest : ∀ l ∈ rest', l ≠ "" ∧ l.length + 1 ≤ 3000 :=
      fun l hm => hl l (List.mem_cons_of_mem _ hm)
    by_cases hgt : cur.length + line.length + 1 > 3000
    · rw [splitChunksAux, if_pos hgt]
      obtain ⟨r, heq, hrne, hjoin, hb⟩ :=
        ih line (chunks ++ [cur]) hrest hline.1 (by omega)
      refine ⟨cur :: r, ?_, by simp, ?_, ?_⟩
      · rw [heq, List.append_assoc, List.singleton_append]
      · rw [nlJoin_cons cur r hrne, hjoin, nlJoin_cons cur (line :: rest') (by simp)]
      · intro c hcm
        rcases List.mem_cons.mp hcm with hcm | hcm
        · subst hcm; exact hlen
        · exact hb c hcm
    · rw [splitChunksAux, if_neg hgt, if_neg hcur]
      have hnewlen : (cur ++ "\n" ++ line).length = cur.length + 1 + line.length := by
        rw [String.length_append, String.length_append]; rfl
      obtain ⟨r, heq, hrne, hjoin, hb⟩ :=
        ih (cur ++ "\n" ++ line) chunks hrest
          (ne_empty_of_length_ne_zero _ (by omega)) (by omega)
      refine ⟨r, heq, hrne, ?_, hb⟩
      rw [hjoin, nlJoin_glue]

lemma updateSlackMessageR_retries (content : String) (hc : content ≠ "") (k : Nat)
    (ra : Option Nat) :
    updateSlackMessageR true content
        (List.replicate k (PResult.rateLimited ra) ++ [PResult.ok]) =
      (List.replicate k [Eff.update content, Eff.wait (retryDelaySecs ra)]).flatten
        ++ [Eff.update content] := by
  induction k with
  | zero => simp [updateSlackMessageR, hc]
  | succ n ih => simp [List.replicate_succ, updateSlackMessageR, hc, ih]

lemma postChunksR_no_wait (n : Nat) : ∀ (cs : List String) (rs : List PResult),
    Eff.wait n ∉ postChunksR cs rs := by
  intro cs
  induction cs with
  | nil => intro rs; simp [postChunksR]
  | cons c cs ih =>
    intro rs
    cases rs with
    | nil => simp [postChunksR]
    | cons r rs2 =>
      simp only [postChunksR, List.mem_cons]
      rintro (h | h)
      · exact absurd h (by simp)
      · by_cases hr : r = PResult.ok
        · rw [if_pos hr] at h
          exact ih rs2 h
        · rw [if_neg hr] at h
          simp at h

lemma handleChatResponseR_no_wait (cur : Bool) (c : String) (rs : List PResult)
    (n : Nat) : Eff.wait n ∉ handleChatResponseR cur c rs := by
  unfold handleChatResponseR
  by_cases h1 : cur = false
  · rw [if_pos h1]; simp
  · rw [if_neg h1]
    by_cases h2 : jsTrim c = ""
    · simp only [h2]
      simp
    · rw [if_neg h2]
      by_cases h3 : (jsTrim c).length > 3000
      · rw [if_pos h3]
        cases rs with
        | nil => simp
        | cons r rs2 =>
          simp only [List.mem_cons]
          rintro (h | h)
          · exact absurd h (by simp)
          · by_cases hr : r = PResult.ok
            · rw [if_pos hr] at h
              exact postChunksR_no_wait n _ rs2 h
            · rw [if_neg hr] at h
              simp at h
      · rw [if_neg h3]
        simp

/-! ## Claim theorems -/

/-- Claim C1 (amended): for every sequence of `stream_chunk` frames with
contents c1..cn delivered during one active turn and followed by
`stream_complete`, *provided no chunk content contains the
connection-marker substring and the concatenation is non-empty*, the
final text rendered to the target message equals c1‖c2‖…‖cn, regardless
of which intermediate flushes the 500ms rate limiter scheduled (the
chunk timestamps are arbitrary). -/
theorem c1_streamed_concat_rendered (cs : List (Nat × String)) (tEnd : Nat)
    (hm : ∀ p ∈ cs, containsMarker p.2 = false)
    (hne : concatAll (cs.map Prod.snd) ≠ "") :
    renderedText thinkingText
      ((runTrace freshTurn (chunkEvents cs ++ [(tEnd, some completeMsg)])).2.map Prod.snd)
    = concatAll (cs.map Prod.snd) := by
  obtain ⟨hcur, hmc⟩ := runTrace_chunks cs freshTurn hm
  rw [runTrace_append]
  have hmc2 : (runTrace freshTurn (chunkEvents cs)).1.messageContent
      = concatAll (cs.map Prod.snd) := by
    simpa [freshTurn, String.empty_append] using hmc
  have hcur2 : (runTrace freshTurn (chunkEvents cs)).1.currentMessage = true := by
    simpa [freshTurn] using hcur
  rw [List.map_append, renderedText, List.foldl_append]
  rw [runTrace_complete tEnd _ hcur2 (by rw [hmc2]; exact hne)]
  simp [applyEff, hmc2]

/-- Witness for C1: chunks `"ab"` at t=0 and `"cd"` at t=700 followed by
`stream_complete` at t=800 render `"abcd"`. -/
theorem c1_streamed_concat_rendered_witness :
    renderedText thinkingText
      ((runTrace freshTurn (chunkEvents [(0, "ab"), (700, "cd")]
        ++ [(800, some completeMsg)])).2.map Prod.snd)
    = "abcd" :=
  c1_streamed_concat_rendered [(0, "ab"), (700, "cd")] 800 (by decide) (by decide)

/-- Counterexample to C1 as stated: a single chunk whose content is the
connection-marker string is discarded by the marker check, so nothing is
ever rendered — the target message still shows the placeholder, not the
chunk concatenation. -/
theorem c1_marker_chunk_counterexample :
    renderedText thinkingText
      ((runTrace freshTurn (chunkEvents [(0, connectionMarker)]
        ++ [(600, some completeMsg)])).2.map Prod.snd)
      = thinkingText ∧
    thinkingText ≠ connectionMarker := by
  exact ⟨by decide, by decide⟩

/-- Claim C2 (amended): for content of length > 3000 whose lines are
each *non-empty and at most 2999 characters*, the splitting loop
produces chunks each of length ≤ 3000 whose newline-joined concatenation
equals the original content exactly (which also forces the original
line order). -/
theorem c2_splitter_bounded_rejoins (lines : List String)
    (h1 : ∀ l ∈ lines, l ≠ "" ∧ l.length ≤ 2999)
    (hL : (nlJoin lines).length > 3000) :
    (∀ c ∈ splitChunks 3000 lines, c.length ≤ 3000) ∧
    nlJoin (splitChunks 3000 lines) = nlJoin lines := by
  cases lines with
  | nil => simp [nlJoin] at hL
  | cons l rest =>
    have hl := h1 l (List.mem_cons_self _ _)
    have hrest : ∀ x ∈ rest, x ≠ "" ∧ x.length + 1 ≤ 3000 := by
      intro x hx
      have := h1 x (List.mem_cons_of_mem _ hx)
      exact ⟨this.1, by omega⟩
    have hstep : splitChunks 3000 (l :: rest) = splitChunksAux 3000 rest l [] := by
      unfold splitChunks
      rw [splitChunksAux, if_neg (by simp; omega), if_pos rfl]
    obtain ⟨r, heq, hrne, hjoin, hb⟩ :=
      splitChunksAux_spec rest l [] hrest hl.1 (by omega)
    rw [hstep, heq, List.nil_append]
    exact ⟨hb, hjoin⟩

/-- Witness for C2: two 1501-character lines (joined length 3003). -/
theorem c2_splitter_bounded_rejoins_witness :
    (nlJoin [a1501, a1501]).length > 3000 ∧
    nlJoin (splitChunks 3000 [a1501, a1501]) = nlJoin [a1501, a1501] := by
  have hlen : (nlJoin [a1501, a1501]).length = 3003 := by
    show (a1501 ++ "\n" ++ a1501).length = 3003
    rw [String.length_append, String.length_append, a1501_length]
    rfl
  have hmem : ∀ l ∈ [a1501, a1501], l ≠ "" ∧ l.length ≤ 2999 := by
    intro l hl
    have hx : l = a1501 := by
      rcases List.mem_cons.mp hl with h | h
      · exact h
      · simpa using h
    subst hx
    exact ⟨ne_empty_of_length_ne_zero _ (by rw [a1501_length]; omega),
      by rw [a1501_length]; omega⟩
  exact ⟨by omega,
    (c2_splitter_bounded_rejoins [a1501, a1501] hmem (by omega)).2⟩

/-- Counterexample to C2 as stated: with a first line of exactly 3000
characters (allowed by the claim's "each line at most 3000"), the loop
pushes an *empty* first chunk, so the newline-joined chunks gain a
spurious leading newline and no longer equal the original content. -/
theorem c2_full_line_counterexample :
    big3000.length ≤ 3000 ∧ ("b" : String).length ≤ 3000 ∧
    (nlJoin [big3000, "b"]).length > 3000 ∧
    nlJoin (splitChunks 3000 [big3000, "b"]) ≠ nlJoin [big3000, "b"] := by
  have hb1 : ("b" : String).length = 1 := rfl
  have h0 : ("" : String).length = 0 := rfl
  have hsplit : splitChunks 3000 [big3000, "b"] = ["", big3000, "b"] := by
    unfold splitChunks
    rw [splitChunksAux, if_pos (by rw [h0, big3000_length]; omega)]
    rw [splitChunksAux, if_pos (by rw [hb1, big3000_length]; omega)]
    rw [splitChunksAux, if_neg (by decide)]
    rfl
  have hlen1 : (nlJoin [big3000, "b"]).length = 3002 := by
    show (big3000 ++ "\n" ++ "b").length = 3002
    rw [String.length_append, String.length_append, big3000_length]
    rfl
  refine ⟨by rw [big3000_length], by decide, by omega, ?_⟩
  rw [hsplit]
  intro heq
  have ha : (nlJoin ["", big3000, "b"]).length = 3002 := by rw [heq, hlen1]
  have hb : (nlJoin ["", big3000, "b"]).length = 3003 := by
    show ("" ++ "\n" ++ nlJoin [big3000, "b"]).length = 3003
    rw [String.length_append, String.length_append, hlen1]
    rfl
  omega

/-- Claim C3 (amended): on each unexpected close below the ceiling of 5
a reconnect is scheduled and the counter incremented once, but the
delay is `1000ms × (counter value before the increment)`, so the
successive delays after a fresh successful open are 0, 1000, 2000,
3000, 4000 milliseconds — not 1000..5000. -/
theorem c3_reconnect_delay_schedule :
    closeSeq 0 5 = [some 0, some 1000, some 2000, some 3000, some 4000] ∧
    ∀ a : Nat, a < 5 → connStep a ConnEvent.closed = (a + 1, some (1000 * a)) := by
  refine ⟨by decide, ?_⟩
  intro a ha
  simp [connStep, ha]

/-- Witness for C3: from counter value 2, a close schedules a 2000ms
reconnect and the counter becomes 3. -/
theorem c3_reconnect_delay_schedule_witness :
    connStep 2 ConnEvent.closed = (3, some 2000) :=
  c3_reconnect_delay_schedule.2 2 (by decide)

/-- Counterexample to C3 as stated: the five successive delays after a
fresh open are not 1000..5000ms (the first scheduled delay is 0ms,
because `RECONNECT_DELAY * reconnectAttempts` is computed before the
increment inside the timer callback). -/
theorem c3_delay_counterexample :
    closeSeq 0 5 ≠ [some 1000, some 2000, some 3000, some 4000, some 5000] := by
  decide

/-- Claim C4 (amended): only the streaming-flush path
(`updateSlackMessage`) retries on a platform rate-limit, waiting the
server-specified delay (default 1 second) before re-issuing the same
call until a non-rate-limit result arrives; the update/post calls made
while rendering a finished message (`handleChatResponse`) never wait
and never retry — any error there is caught and logged, aborting the
remaining chunk posts. -/
theorem c4_rate_limit_retry_scope :
    (∀ (content : String) (k : Nat) (ra : Option Nat), content ≠ "" →
      updateSlackMessageR true content
          (List.replicate k (PResult.rateLimited ra) ++ [PResult.ok]) =
        (List.replicate k [Eff.update content, Eff.wait (retryDelaySecs ra)]).flatten
          ++ [Eff.update content]) ∧
    (∀ (cur : Bool) (c : String) (rs : List PResult) (n : Nat),
      Eff.wait n ∉ handleChatResponseR cur c rs) :=
  ⟨fun content k ra hc => updateSlackMessageR_retries content hc k ra,
   handleChatResponseR_no_wait⟩

/-- Witness for C4: one rate-limit with `retryAfter = 2` followed by
success makes the streaming flush call, wait 2 seconds, and call
again. -/
theorem c4_rate_limit_retry_scope_witness :
    updateSlackMessageR true "x" [PResult.rateLimited (some 2), PResult.ok]
      = (List.replicate 1 [Eff.update "x", Eff.wait (retryDelaySecs (some 2))]).flatten
        ++ [Eff.update "x"] :=
  c4_rate_limit_retry_scope.1 "x" 1 (some 2) (by decide)

/-- Counterexample to C4 as stated: a rate-limited platform response
while rendering a finished message produces exactly one call and no
wait/retry, although a successful response was available next — the
claimed wait-and-retry-until-success does not happen on this path. -/
theorem c4_no_retry_counterexample :
    handleChatResponseR true "hi" [PResult.rateLimited (some 2), PResult.ok]
      = [Eff.update "hi"] := by
  decide

/-- Claim C5: after 5 consecutive unexpected closes with no successful
open between them, no 6th automatic reconnect is scheduled; the
reconnect counter is set to 0 on every successful open, and no other
event resets a non-zero counter. -/
theorem c5_reconnect_ceiling_and_reset :
    closeSeq 0 6 = [some 0, some 1000, some 2000, some 3000, some 4000, none] ∧
    (∀ a : Nat, (connStep a ConnEvent.opened).1 = 0) ∧
    (∀ (a : Nat) (e : ConnEvent), (connStep a e).1 = 0 → a = 0 ∨ e = ConnEvent.opened) := by
  refine ⟨by decide, fun a => rfl, ?_⟩
  intro a e h
  cases e with
  | opened => exact Or.inr rfl
  | closed =>
    left
    simp only [connStep] at h
    split at h
    · omega
    · exact h
  | frameArrived => exact Or.inl h

/-- Witness for C5: instantiating the reset-only-on-open conjunct at a
zero counter and a frame event. -/
theorem c5_reconnect_ceiling_and_reset_witness :
    (0 : Nat) = 0 ∨ ConnEvent.frameArrived = ConnEvent.opened :=
  c5_reconnect_ceiling_and_reset.2.2 0 ConnEvent.frameArrived rfl

/-- Claim C6 (amended): for chunks `"Hello "` and `" world"` arriving
100ms apart with `stream_complete` 600ms after the first, at absolute
wall-clock start `T ≥ 500` (the realistic case: `lastUpdateTime` is
reset to 0, so the elapsed-time test compares against absolute time),
the platform receives one intermediate flush with `"Hello "` at the
*first chunk's arrival time* (not ≥500ms into the turn) and then the
forced final flush with `"Hello  world"` (the exact concatenation,
double space included). -/
theorem c6_hello_world_trace (T : Nat) (h : 500 ≤ T) :
    (runTrace freshTurn
      [(T, some (chunkMsg "Hello ")), (T + 100, some (chunkMsg " world")),
       (T + 600, some completeMsg)]).2
    = [(T, Eff.update "Hello "), (T + 600, Eff.update "Hello  world")] := by
  have hd1 : decodeFrame (chunkMsg "Hello ") = Frame.streamChunk "Hello " := by decide
  have hd2 : decodeFrame (chunkMsg " world") = Frame.streamChunk " world" := by decide
  have hd3 : decodeFrame completeMsg = Frame.streamComplete := by decide
  have h2 : ¬ (500 ≤ 100) := by omega
  simp [runTrace, handleMessage, hd1, hd2, hd3, handleFrame, freshTurn, h, h2,
    Nat.add_sub_cancel_left, updateSlackMessage]

/-- Witness for C6 (amended) at T = 1000. -/
theorem c6_hello_world_trace_witness :
    (runTrace freshTurn
      [(1000, some (chunkMsg "Hello ")), (1100, some (chunkMsg " world")),
       (1600, some completeMsg)]).2
    = [(1000, Eff.update "Hello "), (1600, Eff.update "Hello  world")] :=
  c6_hello_world_trace 1000 (by decide)

/-- Counterexample to C6 as stated: running the trace at the claim's
literal timestamps (turn start at t=0) produces no intermediate flush
at all — only the single forced final flush, whose text moreover is
`"Hello  world"` (the concatenation has two spaces), not
`"Hello world"`. -/
theorem c6_trace_counterexample :
    (runTrace freshTurn
      [(0, some (chunkMsg "Hello ")), (100, some (chunkMsg " world")),
       (600, some completeMsg)]).2
    = [(600, Eff.update "Hello  world")] := by
  decide

/-- Claim C7: raw inbound text that is not valid JSON (decoded as
`none`) is discarded: the turn state is unchanged, no platform call is
issued, and (being a total function) no exception escapes the decode
step. -/
theorem c7_malformed_json_noop (now : Nat) (s : TurnState) :
    handleMessage now none s = (s, []) :=
  rfl

/-- Claim C8: an `error` frame carrying description `e`
(`{"type":"error","error": e}`) arriving while a turn is active
overwrites the target message with text containing `e` verbatim. -/
theorem c8_error_frame_verbatim (now : Nat) (e : String) (s : TurnState)
    (h : s.currentMessage = true) :
    handleMessage now (some (errorMsg e)) s
      = (s, [Eff.update ("❌ Error: " ++ e)]) ∧
    ∃ a b, "❌ Error: " ++ e = a ++ e ++ b := by
  constructor
  · have hd : decodeFrame (errorMsg e) = Frame.errorFrame (some e) := rfl
    simp [handleMessage, hd, handleFrame, handleErrorMessage, h]
  · exact ⟨"❌ Error: ", "", by rw [String.append_empty]⟩

/-- Witness for C8: `error:"backend down"` on a fresh active turn. -/
theorem c8_error_frame_verbatim_witness :
    handleMessage 0 (some (errorMsg "backend down")) freshTurn
      = (freshTurn, [Eff.update ("❌ Error: " ++ "backend down")]) :=
  (c8_error_frame_verbatim 0 "backend down" freshTurn rfl).1

/-- Claim C9: a `chat_response` or `stream` frame arriving while the
streaming flag is set is ignored entirely — no state change and no
platform call, whatever its content. -/
theorem c9_chat_response_ignored_while_streaming (now : Nat) (j : JsonMsg)
    (s : TurnState) (hs : s.isStreaming = true)
    (ht : j.type = some "chat_response" ∨ j.type = some "stream") :
    handleMessage now (some j) s = (s, []) := by
  have hdec : decodeFrame j = Frame.connectionAck ∨ decodeFrame j = Frame.ignored ∨
      ∃ c, decodeFrame j = Frame.chatResponse c := by
    unfold decodeFrame
    by_cases hmk : hasMarker j
    · rw [if_pos hmk]; exact Or.inl rfl
    · rw [if_neg hmk]
      have h1 : ¬ j.type = some "error" := by
        rcases ht with ht | ht <;> rw [ht] <;> decide
      have h2 : ¬ j.type = some "stream_complete" := by
        rcases ht with ht | ht <;> rw [ht] <;> decide
      have h3 : ¬ (j.type = some "stream_chunk" ∧ j.content.getD "" ≠ "") := by
        rintro ⟨hty, -⟩
        rcases ht with ht | ht <;> rw [ht] at hty <;> exact absurd hty (by decide)
      rw [if_neg h1, if_neg h2, if_neg h3]
      by_cases hc : (j.type = some "chat_response" ∨ j.type = some "stream")
          ∧ j.content.getD "" ≠ ""
      · rw [if_pos hc]; exact Or.inr (Or.inr ⟨_, rfl⟩)
      · rw [if_neg hc]; exact Or.inr (Or.inl rfl)
  simp only [handleMessage]
  rcases hdec with h | h | ⟨c, h⟩ <;> rw [h] <;> simp [handleFrame, hs]

/-- Witness for C9: a `chat_response` frame with content `"done"`
arriving mid-stream changes nothing. -/
theorem c9_chat_response_ignored_while_streaming_witness :
    handleMessage 0 (some (chatMsg "done")) streamingTurn
      = (streamingTurn, []) :=
  c9_chat_response_ignored_while_streaming 0 (chatMsg "done") streamingTurn rfl
    (Or.inl rfl)

/-- Claim C10: any decoded frame whose `content` contains the substring
`"Connected to ANA Multi-Agent"` is discarded regardless of its
declared type: no state change, no platform call, so its content is
never appended to the buffer and never rendered. -/
theorem c10_marker_discarded_any_type (now : Nat) (j : JsonMsg) (c : String)
    (s : TurnState) (hc : j.content = some c) (hm : containsMarker c = true) :
    handleMessage now (some j) s = (s, []) := by
  have hmk : hasMarker j = true := by unfold hasMarker; rw [hc]; exact hm
  simp only [handleMessage]
  unfold decodeFrame
  rw [if_pos hmk]
  rfl

/-- Witness for C10: a `stream_chunk` frame whose content is exactly
the marker string is dropped. -/
theorem c10_marker_discarded_any_type_witness :
    handleMessage 0 (some (chunkMsg connectionMarker)) freshTurn
      = (freshTurn, []) :=
  c10_marker_discarded_any_type 0 (chunkMsg connectionMarker) connectionMarker
    freshTurn rfl (by decide)

end SlackRelay
